import Mathlib

/-!
Shallow embedding of the campus-revival-backend adoption/journal/dashboard
routes (src/campus-revival-backend/models/routes/api.js) together with the
mongoose schemas (models/school.js, models/adoption.js).

Modelling conventions:
* Mongo object ids are Nat; timestamps are Nat milliseconds.
* JS numbers used only for coordinate range checks are modelled as Int.
* A database snapshot is a structure of three collections (lists).
* Each awaited store operation (findById, create, save, deleteOne, find)
  is an atomic function on the snapshot; route handlers are compositions
  of these, returning a result value plus the new snapshot.
* The unique index on the (userId, schoolId) pair of adoption.js line 39
  is modelled inside the create operation: inserting a pair that is
  already present fails with the duplicate-key outcome (mongo E11000).
* Mongo sort is modelled by List.mergeSort with the corresponding
  descending comparator.
-/

/-- A school document (models/school.js): name (unique, trimmed),
lat in [-90, 90], lng in [-180, 180], address, adopted flag
(default false), adopterId (default null), optional trimmed
description of at most 2000 characters. -/
structure School where
  id : Nat
  name : String
  lat : Int
  lng : Int
  address : String
  adopted : Bool
  adopterId : Option Nat
  description : Option String
  deriving Repr, DecidableEq

/-- An embedded journal sub-entry stored inside an Adoption document
(models/adoption.js lines 18-28). -/
structure SubEntry where
  text : String
  date : Nat
  deriving Repr, DecidableEq

/-- An adoption document (models/adoption.js): userId, schoolId,
dateAdopted, embedded journal sub-entries, prayerCount (default 0). -/
structure Adoption where
  userId : Nat
  schoolId : Nat
  dateAdopted : Nat
  journalEntries : List SubEntry
  prayerCount : Nat
  deriving Repr, DecidableEq

/-- Modelled from the spec: the standalone Journal model file is not under
src/ (only the routes that use it are). Fields follow spec section 3
(JournalEntry: identity, userId, free text, optional schoolId, timestamp)
and the field names used by the routes (entryText, schoolId, date). -/
structure JournalEntry where
  id : Nat
  userId : Nat
  entryText : String
  schoolId : Option Nat
  date : Nat
  deriving Repr, DecidableEq

/-- A snapshot of the three collections the verified routes touch. -/
structure DB where
  schools : List School
  adoptions : List Adoption
  journals : List JournalEntry
  deriving Repr, DecidableEq

/-- Outcome of POST /adoptions (api.js lines 234-290). The created case
carries the new adoption and the populated school relation. -/
inductive ClaimResult where
  | missingSchoolId
  | schoolNotFound
  | alreadyAdopted
  | duplicateAdoption
  | created (a : Adoption) (populated : Option School)
  deriving Repr, DecidableEq

/-- HTTP status the route sends for each claim outcome
(api.js lines 238-243, 246-251, 253-258, 272, 278-283). -/
def claimStatus : ClaimResult → Nat
  | .missingSchoolId => 400
  | .schoolNotFound => 404
  | .alreadyAdopted => 400
  | .duplicateAdoption => 400
  | .created _ _ => 201

/-- Error string the route sends for each claim outcome. -/
def claimErrorMsg : ClaimResult → Option String
  | .missingSchoolId => some "School ID is required"
  | .schoolNotFound => some "School not found"
  | .alreadyAdopted => some "School is already adopted by another user"
  | .duplicateAdoption => some "You have already adopted this school"
  | .created _ _ => none

def ClaimResult.isCreated : ClaimResult → Bool
  | .created _ _ => true
  | _ => false

/-- Does an adoption for the (userId, schoolId) pair already exist?
This is the condition under which the unique index of adoption.js
line 39 makes Adoption.create throw the E11000 duplicate-key error. -/
def hasPair (db : DB) (u s : Nat) : Bool :=
  db.adoptions.any (fun a => a.userId == u && a.schoolId == s)

/-- Number of adoption documents for a given (userId, schoolId) pair. -/
def pairCount (db : DB) (u s : Nat) : Nat :=
  (db.adoptions.filter (fun a => a.userId == u && a.schoolId == s)).length

/-- Number of adoption documents referencing a given school. -/
def schoolAdoptions (db : DB) (s : Nat) : Nat :=
  (db.adoptions.filter (fun a => a.schoolId == s)).length

/-- The write phase of POST /adoptions (api.js lines 260-283):
Adoption.create (which fails with E11000 when the pair exists),
then school.save setting adopted and adopterId, then populate. -/
def claimCommit (db : DB) (u s now : Nat) : ClaimResult × DB :=
  if hasPair db u s then (.duplicateAdoption, db)
  else
    let a : Adoption := ⟨u, s, now, [], 0⟩
    let schools2 := db.schools.map fun sc =>
      if sc.id == s then { sc with adopted := true, adopterId := some u } else sc
    let db2 : DB := ⟨schools2, db.adoptions ++ [a], db.journals⟩
    (.created a (schools2.find? fun sc => sc.id == s), db2)

/-- POST /adoptions (api.js lines 234-290): require schoolId, look the
school up, reject when its adopted flag is set, otherwise run the
write phase. -/
def claim (db : DB) (u : Nat) (schoolId : Option Nat) (now : Nat) :
    ClaimResult × DB :=
  match schoolId with
  | none => (.missingSchoolId, db)
  | some s =>
    match db.schools.find? (fun sc => sc.id == s) with
    | none => (.schoolNotFound, db)
    | some school =>
      if school.adopted then (.alreadyAdopted, db)
      else claimCommit db u s now

/-- The School invariant claimed by the spec: adopted iff adopterId set. -/
def schoolInv (sc : School) : Prop := sc.adopted = true ↔ sc.adopterId ≠ none

instance (sc : School) : Decidable (schoolInv sc) := by
  unfold schoolInv; infer_instance

/-- At most one adoption document per (userId, schoolId) pair. -/
def pairUnique (db : DB) : Prop :=
  db.adoptions.Pairwise fun a b => ¬(a.userId = b.userId ∧ a.schoolId = b.schoolId)

instance (db : DB) : Decidable (pairUnique db) := by
  unfold pairUnique; infer_instance

/-!
Concurrency model for POST /adoptions. Each in-flight request is in one
of three phases: it has not yet run its read phase (lines 236-258 of
api.js: the schoolId check, the findById and the adopted-flag check), it
has passed the read phase and still has to run its write phase (lines
260-283: create, save, populate, with the E11000 handler), or it is
finished. Each phase is atomic against the snapshot; two concurrent
requests are an interleaving of these atomic phases.
-/

/-- Phase of one in-flight POST /adoptions request. -/
inductive Pending where
  | toRead (u : Nat) (schoolId : Option Nat) (now : Nat)
  | toCommit (u s now : Nat)
  | finished (r : ClaimResult)
  deriving Repr, DecidableEq

/-- Run the next atomic phase of one request against the snapshot. -/
def stepReq (db : DB) : Pending → Pending × DB
  | .toRead u schoolId now =>
    match schoolId with
    | none => (.finished .missingSchoolId, db)
    | some s =>
      match db.schools.find? (fun sc => sc.id == s) with
      | none => (.finished .schoolNotFound, db)
      | some school =>
        if school.adopted then (.finished .alreadyAdopted, db)
        else (.toCommit u s now, db)
  | .toCommit u s now =>
    let r := claimCommit db u s now
    (.finished r.1, r.2)
  | .finished r => (.finished r, db)

/-- Two concurrent POST /adoptions requests plus the shared snapshot. -/
structure RaceState where
  db : DB
  req1 : Pending
  req2 : Pending
  deriving Repr, DecidableEq

/-- Run one atomic phase of the chosen request (false picks req1). -/
def raceStep (st : RaceState) (which : Bool) : RaceState :=
  if which then
    let r := stepReq st.db st.req2
    ⟨r.2, st.req1, r.1⟩
  else
    let r := stepReq st.db st.req1
    ⟨r.2, r.1, st.req2⟩

/-- Run a schedule, an interleaving of the two requests. -/
def runSched (st : RaceState) (sched : List Bool) : RaceState :=
  sched.foldl raceStep st

/-- The trim applied by the JS runtime and the mongoose trim setter:
drop leading and trailing whitespace. Defined over the character list
so that it evaluates inside the kernel. -/
def jsTrim (s : String) : String :=
  String.mk (((s.data.dropWhile Char.isWhitespace).reverse.dropWhile
    Char.isWhitespace).reverse)

/-- Fields of a POST /schools request body, each possibly absent.
The route forwards the whole body to School.create (api.js line 195),
so the adopted and adopterId fields are settable by the caller. -/
structure SchoolInput where
  name : Option String
  lat : Option Int
  lng : Option Int
  address : Option String
  adopted : Option Bool
  adopterId : Option Nat
  description : Option String
  deriving Repr, DecidableEq

/-- The mongoose document validation of models/school.js: name, lat, lng
and address required, lat in [-90, 90], lng in [-180, 180], name and
address nonempty after trimming, description at most 2000 characters. -/
def schemaValid (inp : SchoolInput) : Bool :=
  (match inp.name with | some n => !(jsTrim n == "") | none => false) &&
  (match inp.lat with | some v => -90 ≤ v && v ≤ 90 | none => false) &&
  (match inp.lng with | some v => -180 ≤ v && v ≤ 180 | none => false) &&
  (match inp.address with | some a => !(jsTrim a == "") | none => false) &&
  (match inp.description with
    | some d => (jsTrim d).length ≤ 2000
    | none => true)

/-- Does a school with the same (trimmed) name already exist?  The
unique index on name makes the insert throw the duplicate-key error. -/
def nameTaken (db : DB) (inp : SchoolInput) : Bool :=
  db.schools.any fun sc => sc.name == jsTrim (inp.name.getD "")

/-- Outcome of POST /schools (api.js lines 193-208). -/
inductive CreateSchoolResult where
  | created (s : School)
  | failed (msg : String)
  deriving Repr, DecidableEq

/-- HTTP status for each POST /schools outcome: 201 on success, and the
single catch block at api.js lines 201-207 maps every failure -
validation, range and duplicate-name alike - to status 500. -/
def createSchoolStatus : CreateSchoolResult → Nat
  | .created _ => 201
  | .failed _ => 500

/-- POST /schools (api.js lines 193-208): School.create(req.body) with
no field filtering; document defaults adopted to false and adopterId to
null when absent; any thrown error is caught and reported as failed. -/
def createSchool (db : DB) (inp : SchoolInput) (newId : Nat) :
    CreateSchoolResult × DB :=
  if schemaValid inp && !nameTaken db inp then
    let s : School := ⟨newId, jsTrim (inp.name.getD ""), inp.lat.getD 0,
      inp.lng.getD 0, jsTrim (inp.address.getD ""), inp.adopted.getD false,
      inp.adopterId, inp.description.map jsTrim⟩
    (.created s, ⟨db.schools ++ [s], db.adoptions, db.journals⟩)
  else (.failed "Failed to create school", db)

/-- Outcome of POST /journal (api.js lines 322-353). -/
inductive PostJournalResult where
  | validationError
  | created (e : JournalEntry)
  deriving Repr, DecidableEq

def postJournalStatus : PostJournalResult → Nat
  | .validationError => 400
  | .created _ => 201

/-- POST /journal (api.js lines 322-353): reject a missing or
whitespace-only entryText with 400, otherwise store the trimmed text. -/
def postJournal (db : DB) (u : Nat) (entryText : Option String)
    (schoolId : Option Nat) (newId now : Nat) : PostJournalResult × DB :=
  match entryText with
  | none => (.validationError, db)
  | some t =>
    if (jsTrim t).length == 0 then (.validationError, db)
    else
      let e : JournalEntry := ⟨newId, u, jsTrim t, schoolId, now⟩
      (.created e, ⟨db.schools, db.adoptions, db.journals ++ [e]⟩)

/-- Descending-date comparator used to model sort on date -1. -/
def dateDescJ (a b : JournalEntry) : Bool := b.date ≤ a.date

/-- GET /journal (api.js lines 295-319): the callers entries, optionally
filtered by school, newest first, capped at the limit (default 50). -/
def getJournal (db : DB) (u : Nat) (schoolId : Option Nat) (limit : Nat) :
    List JournalEntry :=
  ((db.journals.filter fun e => e.userId == u &&
      match schoolId with
      | none => true
      | some s => e.schoolId == some s).mergeSort dateDescJ).take limit

/-- Outcome of DELETE /journal/:id (api.js lines 356-383). -/
inductive DeleteJournalResult where
  | notFound
  | deleted
  deriving Repr, DecidableEq

/-- Response (status, message) of DELETE /journal/:id; both failure
cases go through the same findOne-returned-nothing branch, so they
produce the identical response. -/
def deleteJournalResponse : DeleteJournalResult → Nat × String
  | .notFound => (404, "Journal entry not found")
  | .deleted => (200, "Journal entry deleted")

/-- DELETE /journal/:id (api.js lines 356-383): findOne by both the
entry id and the calling user id; 404 when nothing matches, otherwise
deleteOne on the found document. -/
def deleteJournal (db : DB) (u eid : Nat) : DeleteJournalResult × DB :=
  match db.journals.find? (fun e => e.id == eid && e.userId == u) with
  | none => (.notFound, db)
  | some e => (.deleted, ⟨db.schools, db.adoptions, db.journals.erase e⟩)

/-- Descending-dateAdopted comparator used to model sort dateAdopted -1. -/
def dateDescA (a b : Adoption) : Bool := b.dateAdopted ≤ a.dateAdopted

/-- Stats block of the GET /dashboard payload (api.js lines 454-460). -/
structure DashboardStats where
  schoolsCount : Nat
  totalPrayers : Nat
  journalCount : Nat
  totalJournalEntries : Nat
  daysActive : Nat
  deriving Repr, DecidableEq

/-- The parts of the GET /dashboard payload the spec constrains. -/
structure DashboardView where
  stats : DashboardStats
  recentJournals : List JournalEntry
  deriving Repr, DecidableEq

/-- GET /dashboard (api.js lines 406-473): the callers adoptions sorted
newest first, prayer totals and embedded journal totals reduced over
them, the standalone journal count, the five most recent standalone
entries, and daysActive as floor of elapsed milliseconds over the
milliseconds of a day. The createdAt argument is the callers account
creation time (the User model is not under src/; per the spec it is the
account creation timestamp). The snapshot is returned unchanged: the
route only reads. -/
def dashboard (db : DB) (u now createdAt : Nat) : DashboardView × DB :=
  let adoptions := (db.adoptions.filter fun a => a.userId == u).mergeSort dateDescA
  let totalPrayers := adoptions.foldl (fun s a => s + a.prayerCount) 0
  let journalCount := (db.journals.filter fun e => e.userId == u).length
  let totalJournalEntries :=
    adoptions.foldl (fun s a => s + a.journalEntries.length) 0
  let recentJournals :=
    ((db.journals.filter fun e => e.userId == u).mergeSort dateDescJ).take 5
  (⟨⟨adoptions.length, totalPrayers, journalCount, totalJournalEntries,
      (now - createdAt) / 86400000⟩, recentJournals⟩, db)

/-- Has the request finished with the created (201) outcome? -/
def Pending.isFinishedCreated : Pending → Bool
  | .finished r => r.isCreated
  | _ => false

/-- Has the request finished with the already-adopted (400) outcome? -/
def Pending.isFinishedAlreadyAdopted : Pending → Bool
  | .finished .alreadyAdopted => true
  | _ => false

/-- Snapshot used by the witnesses: one unclaimed school with id 5. -/
def dbA : DB := ⟨[⟨5, "Alpha", 10, 20, "Addr", false, none, none⟩], [], []⟩

/-- Snapshot with school 5 already adopted by user 1, who also holds the
matching adoption document. -/
def dbB : DB := ⟨[⟨5, "Alpha", 10, 20, "Addr", true, some 1, none⟩],
  [⟨1, 5, 50, [], 0⟩], []⟩

/-- The snapshot right after user 1 committed a claim of school 5 over
dbA: the school flagged adopted by user 1 plus the adoption document. -/
def dbACommitted : DB := ⟨[⟨5, "Alpha", 10, 20, "Addr", true, some 1, none⟩],
  [⟨1, 5, 10, [], 0⟩], []⟩

/-- Snapshot with two standalone journal entries: entry 3 owned by
user 1 and entry 4 owned by user 2. -/
def dbJ : DB := ⟨[], [], [⟨3, 1, "hello", none, 30⟩, ⟨4, 2, "later", none, 40⟩]⟩

/-!
Helper lemmas shared by the claim theorems.
-/

/-- Updating the adopter fields of the school with the matched id
commutes with the lookup: the lookup afterwards returns the updated
document. The update preserves ids, so the search predicate is stable. -/
theorem find?_map_set_adopter (l : List School) (s u : Nat) (school : School)
    (h : l.find? (fun sc => sc.id == s) = some school) :
    (l.map fun sc =>
        if sc.id == s then { sc with adopted := true, adopterId := some u }
        else sc).find? (fun sc => sc.id == s) =
      some { school with adopted := true, adopterId := some u } := by
  induction l with
  | nil => simp at h
  | cons hd tl ih =>
    by_cases hid : (hd.id == s) = true
    · rw [@List.find?_cons_of_pos _ (fun sc => sc.id == s) hd tl hid] at h
      injection h with h
      subst h
      rw [List.map_cons, if_pos hid]
      exact List.find?_cons_of_pos _ (by simpa using hid)
    · rw [@List.find?_cons_of_neg _ (fun sc => sc.id == s) hd tl
        (by simpa using hid)] at h
      rw [List.map_cons, if_neg hid]
      rw [List.find?_cons_of_neg _ (by simpa using hid)]
      exact ih h

/-- A left fold accumulating a projection equals the sum of the map. -/
theorem foldl_add_map_sum {α : Type} (f : α → Nat) (l : List α) :
    l.foldl (fun s a => s + f a) 0 = (l.map f).sum := by
  suffices hgen : ∀ n, l.foldl (fun s a => s + f a) n = n + (l.map f).sum by
    simpa using hgen 0
  induction l with
  | nil => intro n; simp
  | cons hd tl ih =>
    intro n
    simp only [List.foldl_cons, List.map_cons, List.sum_cons]
    rw [ih]
    omega

/-- C2: the claim operation preserves the School invariant
(adopted iff adopterId set) on every branch: the missing-schoolId,
not-found, already-adopted and duplicate branches leave the snapshot
unchanged, and the success branch sets both fields together. -/
theorem claim_keeps_school_invariant (db : DB) (u : Nat) (sid : Option Nat)
    (now : Nat) (h : ∀ sc ∈ db.schools, schoolInv sc) :
    ∀ sc ∈ (claim db u sid now).2.schools, schoolInv sc := by
  have hc : ∀ s, ∀ sc ∈ (claimCommit db u s now).2.schools, schoolInv sc := by
    intro s sc hsc
    unfold claimCommit at hsc
    cases hp : hasPair db u s with
    | true => rw [if_pos hp] at hsc; exact h sc hsc
    | false =>
      rw [if_neg (by simp [hp])] at hsc
      simp only at hsc
      obtain ⟨sc0, hsc0, rfl⟩ := List.mem_map.mp hsc
      by_cases hid : (sc0.id == s) = true
      · rw [if_pos hid]; simp [schoolInv]
      · rw [if_neg hid]; exact h sc0 hsc0
  cases sid with
  | none => simpa [claim] using h
  | some s =>
    cases hf : db.schools.find? (fun sc => sc.id == s) with
    | none => simpa [claim, hf] using h
    | some school =>
      cases had : school.adopted with
      | true => simpa [claim, hf, had] using h
      | false => simpa [claim, hf, had] using hc s

/-- Witness for C2 at a concrete input: the school document left by a
successful claim over dbA satisfies the invariant. -/
theorem claim_keeps_school_invariant_witness :
    schoolInv ⟨5, "Alpha", 10, 20, "Addr", true, some 1, none⟩ :=
  claim_keeps_school_invariant dbA 1 (some 5) 100 (by decide)
    ⟨5, "Alpha", 10, 20, "Addr", true, some 1, none⟩ (by decide)

/-- C4: a successful claim (schoolId present, school found, adopted flag
clear, pair not yet present) appends exactly one adoption with the
calling user and the school, sets the adopted flag and adopterId of that
school, leaves journals alone, and answers 201 carrying the new adoption
with the updated school relation resolved. -/
theorem claim_success_spec (db : DB) (u s now : Nat) (school : School)
    (hfind : db.schools.find? (fun sc => sc.id == s) = some school)
    (hnot : school.adopted = false)
    (hfresh : hasPair db u s = false) :
    ∃ a pop db2, claim db u (some s) now = (.created a pop, db2) ∧
      a = ⟨u, s, now, [], 0⟩ ∧
      db2.adoptions = db.adoptions ++ [a] ∧
      pairCount db2 u s = pairCount db u s + 1 ∧
      db2.journals = db.journals ∧
      (∀ sc ∈ db2.schools, sc.id = s → sc.adopted = true ∧ sc.adopterId = some u) ∧
      pop = some { school with adopted := true, adopterId := some u } ∧
      claimStatus (.created a pop) = 201 := by
  have hclaim : claim db u (some s) now = claimCommit db u s now := by
    simp [claim, hfind, hnot]
  have hcommit : claimCommit db u s now =
      (.created ⟨u, s, now, [], 0⟩
        ((db.schools.map fun sc =>
            if sc.id == s then { sc with adopted := true, adopterId := some u }
            else sc).find? fun sc => sc.id == s),
        ⟨db.schools.map fun sc =>
            if sc.id == s then { sc with adopted := true, adopterId := some u }
            else sc,
          db.adoptions ++ [⟨u, s, now, [], 0⟩], db.journals⟩) := by
    unfold claimCommit
    rw [if_neg (by simp [hfresh])]
  refine ⟨⟨u, s, now, [], 0⟩, _, _, hclaim.trans hcommit, rfl, rfl, ?_, rfl,
    ?_, find?_map_set_adopter db.schools s u school hfind, rfl⟩
  · simp [pairCount, List.filter_append]
  · intro sc hsc hid
    obtain ⟨sc0, hsc0, rfl⟩ := List.mem_map.mp hsc
    by_cases h0 : (sc0.id == s) = true
    · rw [if_pos h0]; exact ⟨rfl, rfl⟩
    · rw [if_neg h0] at hid ⊢
      exact absurd (by simpa using hid) (by simpa using h0)

/-- Witness for C4 at a concrete input: claiming school 5 of dbA as
user 1 succeeds with the described effects. -/
theorem claim_success_spec_witness :
    ∃ a pop db2, claim dbA 1 (some 5) 100 = (.created a pop, db2) ∧
      a = ⟨1, 5, 100, [], 0⟩ ∧
      db2.adoptions = dbA.adoptions ++ [a] ∧
      pairCount db2 1 5 = pairCount dbA 1 5 + 1 ∧
      db2.journals = dbA.journals ∧
      (∀ sc ∈ db2.schools, sc.id = 5 → sc.adopted = true ∧ sc.adopterId = some 1) ∧
      pop = some { (⟨5, "Alpha", 10, 20, "Addr", false, none, none⟩ : School) with
        adopted := true, adopterId := some 1 } ∧
      claimStatus (.created a pop) = 201 :=
  claim_success_spec dbA 1 5 100 ⟨5, "Alpha", 10, 20, "Addr", false, none, none⟩
    (by decide) rfl rfl

/-- C5: when the target school exists and its adopted flag is set, the
claim answers 400 with the already-adopted error, for every requesting
user (the route never compares the requester with the current adopter),
and the snapshot is returned unchanged. -/
theorem claim_already_adopted_spec (db : DB) (u s now : Nat) (school : School)
    (hfind : db.schools.find? (fun sc => sc.id == s) = some school)
    (had : school.adopted = true) :
    claim db u (some s) now = (.alreadyAdopted, db) ∧
    claimStatus (claim db u (some s) now).1 = 400 ∧
    claimErrorMsg (claim db u (some s) now).1 =
      some "School is already adopted by another user" ∧
    (claim db u (some s) now).2.adoptions = db.adoptions ∧
    (claim db u (some s) now).2.schools = db.schools := by
  have h : claim db u (some s) now = (.alreadyAdopted, db) := by
    simp [claim, hfind, had]
  exact ⟨h, by simp [h, claimStatus], by simp [h, claimErrorMsg],
    by simp [h], by simp [h]⟩


/-- Witness for C5 at a concrete input where the requester is the
current adopter herself: the claim still answers 400 already-adopted
and mutates nothing. -/
theorem claim_already_adopted_spec_witness :
    claim dbB 1 (some 5) 100 = (.alreadyAdopted, dbB) ∧
    claimStatus (claim dbB 1 (some 5) 100).1 = 400 ∧
    claimErrorMsg (claim dbB 1 (some 5) 100).1 =
      some "School is already adopted by another user" ∧
    (claim dbB 1 (some 5) 100).2.adoptions = dbB.adoptions ∧
    (claim dbB 1 (some 5) 100).2.schools = dbB.schools :=
  claim_already_adopted_spec dbB 1 5 100
    ⟨5, "Alpha", 10, 20, "Addr", true, some 1, none⟩ (by decide) rfl

/-- When no adoption for the pair exists, the pair count is zero. -/
theorem pairCount_eq_zero (db : DB) (u s : Nat) (h : hasPair db u s = false) :
    pairCount db u s = 0 := by
  unfold pairCount
  rw [List.length_eq_zero, List.filter_eq_nil_iff]
  exact List.any_eq_false.mp h

/-- C1 counterexample: after user 1 successfully claims school 5, a
second claim by the same user for the same school does fail with 400
and creates nothing, but the error it fails with is the already-adopted
message of the adopted-flag check (api.js line 253), not the
duplicate-adoption message of the E11000 handler that the claim names:
the adopted flag was set by the first claim and is checked first. -/
theorem claim_repeat_message_counterexample :
    (claim dbA 1 (some 5) 10).1.isCreated = true ∧
    claimStatus (claim (claim dbA 1 (some 5) 10).2 1 (some 5) 20).1 = 400 ∧
    claimErrorMsg (claim (claim dbA 1 (some 5) 10).2 1 (some 5) 20).1 =
      some "School is already adopted by another user" ∧
    claimErrorMsg (claim (claim dbA 1 (some 5) 10).2 1 (some 5) 20).1 ≠
      some "You have already adopted this school" ∧
    (claim (claim dbA 1 (some 5) 10).2 1 (some 5) 20).1 ≠
      ClaimResult.duplicateAdoption := by
  decide

/-- C1 (amended): after a claim for the pair succeeds, a later claim
attempt by the same user for the same school fails with status 400 -
concretely with the already-adopted-school error, since the adopted
flag set by the first claim is checked before the insert; the
duplicate-adoption error is reserved for an insert that loses the
E11000 race - it creates no second adoption document, and exactly one
adoption for the pair exists before and after the repeat attempt. -/
theorem claim_repeat_rejected (db : DB) (u s now now2 : Nat) (school : School)
    (hfind : db.schools.find? (fun sc => sc.id == s) = some school)
    (hnot : school.adopted = false)
    (hfresh : hasPair db u s = false) :
    (claim db u (some s) now).1.isCreated = true ∧
    pairCount (claim db u (some s) now).2 u s = 1 ∧
    claim (claim db u (some s) now).2 u (some s) now2 =
      (.alreadyAdopted, (claim db u (some s) now).2) ∧
    claimStatus (claim (claim db u (some s) now).2 u (some s) now2).1 = 400 ∧
    pairCount (claim (claim db u (some s) now).2 u (some s) now2).2 u s = 1 := by
  have hclaim : claim db u (some s) now = claimCommit db u s now := by
    simp [claim, hfind, hnot]
  have hcommit : claimCommit db u s now =
      (.created ⟨u, s, now, [], 0⟩
        ((db.schools.map fun sc =>
            if sc.id == s then { sc with adopted := true, adopterId := some u }
            else sc).find? fun sc => sc.id == s),
        ⟨db.schools.map fun sc =>
            if sc.id == s then { sc with adopted := true, adopterId := some u }
            else sc,
          db.adoptions ++ [⟨u, s, now, [], 0⟩], db.journals⟩) := by
    unfold claimCommit
    rw [if_neg (by simp [hfresh])]
  have heq := hclaim.trans hcommit
  have hcount : pairCount (claim db u (some s) now).2 u s = 1 := by
    rw [heq]
    simp [pairCount, List.filter_append]
    intro a ha hau
    have h3 := List.any_eq_false.mp hfresh a ha
    simpa [hau] using h3
  have hfind2 : (claim db u (some s) now).2.schools.find?
      (fun sc => sc.id == s) =
      some { school with adopted := true, adopterId := some u } := by
    rw [heq]
    exact find?_map_set_adopter db.schools s u school hfind
  have h2 : claim (claim db u (some s) now).2 u (some s) now2 =
      (.alreadyAdopted, (claim db u (some s) now).2) := by
    set db2 := (claim db u (some s) now).2
    simp [claim, hfind2]
  refine ⟨by rw [heq]; rfl, hcount, h2, by simp [h2, claimStatus],
    by rw [h2]; exact hcount⟩

/-- Witness for C1 (amended) at a concrete input. -/
theorem claim_repeat_rejected_witness :
    (claim dbA 1 (some 5) 10).1.isCreated = true ∧
    pairCount (claim dbA 1 (some 5) 10).2 1 5 = 1 ∧
    claim (claim dbA 1 (some 5) 10).2 1 (some 5) 20 =
      (.alreadyAdopted, (claim dbA 1 (some 5) 10).2) ∧
    claimStatus (claim (claim dbA 1 (some 5) 10).2 1 (some 5) 20).1 = 400 ∧
    pairCount (claim (claim dbA 1 (some 5) 10).2 1 (some 5) 20).2 1 5 = 1 :=
  claim_repeat_rejected dbA 1 5 10 20
    ⟨5, "Alpha", 10, 20, "Addr", false, none, none⟩ (by decide) rfl rfl

/-- Link between the concurrency model and the route handler: running
the two phases of one request back to back, with no interleaved writer,
is exactly the sequential claim. -/
theorem stepReq_twice_eq_claim (db : DB) (u : Nat) (sid : Option Nat)
    (now : Nat) :
    stepReq (stepReq db (.toRead u sid now)).2 (stepReq db (.toRead u sid now)).1 =
      (.finished (claim db u sid now).1, (claim db u sid now).2) := by
  cases sid with
  | none => simp [stepReq, claim]
  | some s =>
    cases hf : db.schools.find? (fun sc => sc.id == s) with
    | none => simp [stepReq, claim, hf]
    | some school =>
      cases had : school.adopted with
      | true => simp [stepReq, claim, hf, had]
      | false => simp [stepReq, claim, hf, had]

/-- C3 counterexample: from a state where school 5 is unclaimed, two
requests by the two different users 1 and 2 interleave as read, read,
commit, commit. Both read phases see the adopted flag clear, and the
(userId, schoolId) unique index blocks neither insert because the pairs
differ, so both requests finish 201-created - not exactly one success -
and the final state holds two adoption documents referencing school 5:
a silent school-level duplicate in a reachable state. -/
theorem race_two_users_counterexample :
    (runSched ⟨dbA, .toRead 1 (some 5) 10, .toRead 2 (some 5) 11⟩
        [false, true, false, true]).req1.isFinishedCreated = true ∧
    (runSched ⟨dbA, .toRead 1 (some 5) 10, .toRead 2 (some 5) 11⟩
        [false, true, false, true]).req2.isFinishedCreated = true ∧
    (runSched ⟨dbA, .toRead 1 (some 5) 10, .toRead 2 (some 5) 11⟩
        [false, true, false, true]).req2.isFinishedAlreadyAdopted = false ∧
    schoolAdoptions (runSched ⟨dbA, .toRead 1 (some 5) 10, .toRead 2 (some 5) 11⟩
        [false, true, false, true]).db 5 = 2 := by
  decide

/-- C3 (amended): the unique index guards the (userId, schoolId) pair,
not the school. Every claim and every commit phase preserves at most
one adoption per pair, and when the same user commits twice for the
same school the second insert fails with the 400 duplicate-adoption
error, leaving exactly one document for the pair; two different users
racing on the same unclaimed school are not serialized by the index
(race_two_users_counterexample). -/
theorem claim_pair_unique_spec (db : DB) (u s now now2 u2 : Nat)
    (sid : Option Nat) (hpu : pairUnique db) :
    pairUnique (claim db u2 sid now).2 ∧
    pairUnique (claimCommit db u s now).2 ∧
    (∀ a pop db1, claimCommit db u s now = (.created a pop, db1) →
      claimCommit db1 u s now2 = (.duplicateAdoption, db1) ∧
      claimStatus ClaimResult.duplicateAdoption = 400 ∧
      claimErrorMsg ClaimResult.duplicateAdoption =
        some "You have already adopted this school" ∧
      pairCount db1 u s = 1) := by
  have hcp : ∀ u3 s3 n3, pairUnique (claimCommit db u3 s3 n3).2 := by
    intro u3 s3 n3
    unfold claimCommit
    by_cases hp : hasPair db u3 s3 = true
    · rw [if_pos hp]; exact hpu
    · rw [if_neg hp]
      have hp2 : hasPair db u3 s3 = false := by
        revert hp; cases hasPair db u3 s3 <;> simp
      show (db.adoptions ++ [(⟨u3, s3, n3, [], 0⟩ : Adoption)]).Pairwise _
      rw [List.pairwise_append]
      refine ⟨hpu, by simp, ?_⟩
      intro x hx y hy
      rw [List.mem_singleton] at hy
      subst hy
      have h5 := List.any_eq_false.mp hp2 x hx
      simpa using h5
  have hclp : pairUnique (claim db u2 sid now).2 := by
    cases sid with
    | none => simpa [claim] using hpu
    | some s3 =>
      cases hf : db.schools.find? (fun sc => sc.id == s3) with
      | none => simpa [claim, hf] using hpu
      | some school =>
        cases had : school.adopted with
        | true => simpa [claim, hf, had] using hpu
        | false => simpa [claim, hf, had] using hcp u2 s3 now
  refine ⟨hclp, hcp u s now, ?_⟩
  intro a pop db1 hsucc
  unfold claimCommit at hsucc
  cases hp : hasPair db u s with
  | true =>
    rw [if_pos hp] at hsucc
    exact absurd (congrArg Prod.fst hsucc) (by simp)
  | false =>
    rw [if_neg (by simp [hp])] at hsucc
    have h4 : (⟨db.schools.map fun sc =>
        if sc.id == s then { sc with adopted := true, adopterId := some u }
        else sc,
        db.adoptions ++ [⟨u, s, now, [], 0⟩], db.journals⟩ : DB) = db1 :=
      congrArg Prod.snd hsucc
    have hdb1 : db1.adoptions = db.adoptions ++ [⟨u, s, now, [], 0⟩] := by
      rw [← h4]
    have hhp : hasPair db1 u s = true := by
      unfold hasPair
      rw [hdb1, List.any_append]
      simp
    refine ⟨?_, rfl, rfl, ?_⟩
    · unfold claimCommit
      rw [if_pos hhp]
    · unfold pairCount
      rw [hdb1, List.filter_append]
      simp
      intro x hx hxu
      have h5 := List.any_eq_false.mp hp x hx
      simpa [hxu] using h5

/-- Witness for C3 (amended) at a concrete input: uniqueness of the
pair is preserved over dbA, and a second commit of the (1, 5) pair over
the committed state is rejected as a duplicate. -/
theorem claim_pair_unique_spec_witness :
    pairUnique (claim dbA 2 (some 5) 10).2 ∧
    pairUnique (claimCommit dbA 1 5 10).2 ∧
    claimCommit dbACommitted 1 5 20 = (.duplicateAdoption, dbACommitted) ∧
    pairCount dbACommitted 1 5 = 1 :=
  ⟨(claim_pair_unique_spec dbA 1 5 10 20 2 (some 5) (by decide)).1,
   (claim_pair_unique_spec dbA 1 5 10 20 2 (some 5) (by decide)).2.1,
   ((claim_pair_unique_spec dbA 1 5 10 20 2 (some 5) (by decide)).2.2
     ⟨1, 5, 10, [], 0⟩ (some ⟨5, "Alpha", 10, 20, "Addr", true, some 1, none⟩)
     dbACommitted (by decide)).1,
   ((claim_pair_unique_spec dbA 1 5 10 20 2 (some 5) (by decide)).2.2
     ⟨1, 5, 10, [], 0⟩ (some ⟨5, "Alpha", 10, 20, "Addr", true, some 1, none⟩)
     dbACommitted (by decide)).2.2.2⟩

/-- C6 counterexample: POST /schools has a single catch-all error
branch, so a missing name, an out-of-range latitude and a duplicate
name are all reported with status 500, never with the claimed 400. -/
theorem create_school_status_counterexample :
    createSchoolStatus (createSchool dbA
      ⟨none, some 10, some 20, some "Y", none, none, none⟩ 9).1 = 500 ∧
    createSchoolStatus (createSchool dbA
      ⟨none, some 10, some 20, some "Y", none, none, none⟩ 9).1 ≠ 400 ∧
    createSchoolStatus (createSchool dbA
      ⟨some "Beta", some 91, some 20, some "Y", none, none, none⟩ 9).1 = 500 ∧
    createSchoolStatus (createSchool dbA
      ⟨some "Beta", some 91, some 20, some "Y", none, none, none⟩ 9).1 ≠ 400 ∧
    createSchoolStatus (createSchool dbA
      ⟨some "Alpha", some 10, some 20, some "Y", none, none, none⟩ 9).1 = 500 ∧
    createSchoolStatus (createSchool dbA
      ⟨some "Alpha", some 10, some 20, some "Y", none, none, none⟩ 9).1 ≠ 400 := by
  decide

/-- C6 (amended): school creation fails whenever name, lat, lng or
address is missing, a coordinate is out of range, the name or address
trims to empty, the description exceeds 2000 characters, or the name is
already taken - but every such failure is mapped by the single catch
block to status 500 with the error string Failed to create school, the
snapshot unchanged; only the success path answers 201. The route has no
400 branch. -/
theorem create_school_spec (db : DB) (inp : SchoolInput) (newId : Nat) :
    (schemaValid inp = false ∨ nameTaken db inp = true →
      createSchool db inp newId = (.failed "Failed to create school", db) ∧
      createSchoolStatus (createSchool db inp newId).1 = 500) ∧
    (schemaValid inp = true → nameTaken db inp = false →
      ∃ s, createSchool db inp newId =
        (.created s, ⟨db.schools ++ [s], db.adoptions, db.journals⟩) ∧
        createSchoolStatus (createSchool db inp newId).1 = 201) := by
  constructor
  · intro h
    have hcond : ¬((schemaValid inp && !nameTaken db inp) = true) := by
      rcases h with h | h <;> simp [h]
    have he : createSchool db inp newId =
        (.failed "Failed to create school", db) := by
      unfold createSchool
      rw [if_neg hcond]
    exact ⟨he, by simp [he, createSchoolStatus]⟩
  · intro h1 h2
    have he : createSchool db inp newId =
        (.created ⟨newId, jsTrim (inp.name.getD ""), inp.lat.getD 0,
          inp.lng.getD 0, jsTrim (inp.address.getD ""), inp.adopted.getD false,
          inp.adopterId, inp.description.map jsTrim⟩,
        ⟨db.schools ++ [⟨newId, jsTrim (inp.name.getD ""), inp.lat.getD 0,
          inp.lng.getD 0, jsTrim (inp.address.getD ""), inp.adopted.getD false,
          inp.adopterId, inp.description.map jsTrim⟩],
          db.adoptions, db.journals⟩) := by
      unfold createSchool
      rw [if_pos (by simp [h1, h2])]
    exact ⟨_, he, by simp [he, createSchoolStatus]⟩

/-- Witness for C6 (amended) at concrete inputs: a missing name is
answered 500 with the snapshot unchanged, and a valid fresh school is
answered 201. -/
theorem create_school_spec_witness :
    (createSchool dbA ⟨none, some 10, some 20, some "Y", none, none, none⟩ 9 =
      (.failed "Failed to create school", dbA) ∧
      createSchoolStatus (createSchool dbA
        ⟨none, some 10, some 20, some "Y", none, none, none⟩ 9).1 = 500) ∧
    (∃ s, createSchool dbA
        ⟨some "Beta", some 10, some 20, some "Y", none, none, none⟩ 9 =
        (.created s, ⟨dbA.schools ++ [s], dbA.adoptions, dbA.journals⟩) ∧
      createSchoolStatus (createSchool dbA
        ⟨some "Beta", some 10, some 20, some "Y", none, none, none⟩ 9).1 = 201) :=
  ⟨(create_school_spec dbA ⟨none, some 10, some 20, some "Y", none, none, none⟩
      9).1 (Or.inl (by decide)),
   (create_school_spec dbA ⟨some "Beta", some 10, some 20, some "Y", none,
      none, none⟩ 9).2 (by decide) (by decide)⟩

/-- C10: POST /schools forwards the whole request body to School.create
with no field filtering, so an admin body carrying adopted true and no
adopterId creates a school with adopted set and adopterId null, breaking
the adopted-iff-adopterId invariant at creation time. -/
theorem create_school_breaks_invariant :
    ∃ s db2, createSchool ⟨[], [], []⟩
        ⟨some "X", some 10, some 20, some "Y", some true, none, none⟩ 7 =
        (.created s, db2) ∧
      s.adopted = true ∧ s.adopterId = none ∧ ¬schoolInv s ∧
      s ∈ db2.schools := by
  exact ⟨⟨7, "X", 10, 20, "Y", true, none, none⟩,
    ⟨[⟨7, "X", 10, 20, "Y", true, none, none⟩], [], []⟩,
    by decide, rfl, rfl, by decide, by simp⟩

/-- C8: DELETE /journal/:id succeeds exactly when an entry with the
requested id owned by the calling user exists; a nonexistent id and an
entry owned by someone else both take the same findOne-empty branch and
produce the identical 404 response, and a successful deletion removes
the matched entry. -/
theorem delete_journal_spec (db : DB) (u eid : Nat) :
    ((∀ e ∈ db.journals, ¬(e.id = eid ∧ e.userId = u)) →
      deleteJournal db u eid = (.notFound, db) ∧
      deleteJournalResponse (deleteJournal db u eid).1 =
        (404, "Journal entry not found")) ∧
    ((deleteJournal db u eid).1 = .deleted ↔
      ∃ e ∈ db.journals, e.id = eid ∧ e.userId = u) ∧
    ((deleteJournal db u eid).1 = .deleted →
      ∃ e ∈ db.journals, e.id = eid ∧ e.userId = u ∧
        (deleteJournal db u eid).2.journals = db.journals.erase e ∧
        deleteJournalResponse DeleteJournalResult.deleted =
          (200, "Journal entry deleted")) := by
  cases hf : db.journals.find? (fun e => e.id == eid && e.userId == u) with
  | none =>
    have hd : deleteJournal db u eid = (.notFound, db) := by
      unfold deleteJournal; rw [hf]
    refine ⟨fun _ => ⟨hd, by simp [hd, deleteJournalResponse]⟩, ?_, ?_⟩
    · rw [hd]
      constructor
      · intro h; simp at h
      · rintro ⟨e, he, h1, h2⟩
        have h3 := List.find?_eq_none.mp hf e he
        simp [h1, h2] at h3
    · rw [hd]
      intro h; simp at h
  | some e =>
    have hp := List.find?_some hf
    have hm := List.mem_of_find?_eq_some hf
    have hpe : e.id = eid ∧ e.userId = u := by simpa using hp
    have hd : deleteJournal db u eid =
        (.deleted, ⟨db.schools, db.adoptions, db.journals.erase e⟩) := by
      unfold deleteJournal; rw [hf]
    refine ⟨?_, ?_, ?_⟩
    · intro h
      exact absurd hpe (h e hm)
    · rw [hd]
      exact ⟨fun _ => ⟨e, hm, hpe⟩, fun _ => rfl⟩
    · intro _
      exact ⟨e, hm, hpe.1, hpe.2, by rw [hd], rfl⟩

/-- Witness for C8 at concrete inputs over dbJ: user 1 deleting entry 4
(owned by user 2) gets the 404 response, identical to the nonexistent
case, and user 1 deleting the owned entry 3 removes it. -/
theorem delete_journal_spec_witness :
    (deleteJournal dbJ 1 4 = (.notFound, dbJ) ∧
      deleteJournalResponse (deleteJournal dbJ 1 4).1 =
        (404, "Journal entry not found")) ∧
    (deleteJournal dbJ 1 99 = (.notFound, dbJ) ∧
      deleteJournalResponse (deleteJournal dbJ 1 99).1 =
        (404, "Journal entry not found")) ∧
    (∃ e ∈ dbJ.journals, e.id = 3 ∧ e.userId = 1 ∧
      (deleteJournal dbJ 1 3).2.journals = dbJ.journals.erase e ∧
      deleteJournalResponse DeleteJournalResult.deleted =
        (200, "Journal entry deleted")) :=
  ⟨(delete_journal_spec dbJ 1 4).1 (by decide),
   (delete_journal_spec dbJ 1 99).1 (by decide),
   (delete_journal_spec dbJ 1 3).2.2 (by decide)⟩

/-- The descending-date comparator on journal entries is transitive. -/
theorem dateDescJ_trans (a b c : JournalEntry) (hab : dateDescJ a b = true)
    (hbc : dateDescJ b c = true) : dateDescJ a c = true := by
  simp [dateDescJ] at *
  omega

/-- The descending-date comparator on journal entries is total. -/
theorem dateDescJ_total (a b : JournalEntry) :
    (dateDescJ a b || dateDescJ b a) = true := by
  simp [dateDescJ]
  omega

/-- An entry strictly newer than everything else in the list is placed
at the head by the descending-date sort. -/
theorem mergeSort_cons_of_strict_max (l : List JournalEntry)
    (e : JournalEntry) (hmax : ∀ x ∈ l, x.date < e.date) :
    ∃ r, (l ++ [e]).mergeSort dateDescJ = e :: r := by
  have hsorted := List.sorted_mergeSort dateDescJ_trans dateDescJ_total
    (l ++ [e])
  have hperm := List.mergeSort_perm (l ++ [e]) dateDescJ
  have hmem : e ∈ (l ++ [e]).mergeSort dateDescJ := by
    rw [hperm.mem_iff]
    simp
  cases hms : (l ++ [e]).mergeSort dateDescJ with
  | nil => rw [hms] at hmem; simp at hmem
  | cons y ys =>
    rw [hms] at hmem hsorted hperm
    have hy : y ∈ l ++ [e] := hperm.mem_iff.mp (List.mem_cons_self y ys)
    rcases List.mem_append.mp hy with hyl | hye
    · exfalso
      have hyd : y.date < e.date := hmax y hyl
      rcases List.mem_cons.mp hmem with he | hee
      · have h2 : e.date = y.date := by rw [he]
        omega
      · have hle := (List.pairwise_cons.mp hsorted).1 e hee
        simp [dateDescJ] at hle
        omega
    · rw [List.mem_singleton] at hye
      subst hye
      exact ⟨ys, rfl⟩

/-- C7: POST /journal rejects a missing or whitespace-only entryText
with 400 and stores nothing; a nonblank text is stored trimmed, with
201, and an immediate GET /journal for the same user - the new entry
carrying a timestamp newer than every earlier entry of that user -
returns a list containing the created entry with the trimmed text. -/
theorem journal_roundtrip_spec (db : DB) (u newId now limit : Nat)
    (t : String) (sid : Option Nat)
    (hfresh : ∀ x ∈ db.journals, x.userId = u → x.date < now)
    (hlim : 1 ≤ limit) :
    (∀ t0 : String, (jsTrim t0).length = 0 →
      postJournal db u (some t0) sid newId now = (.validationError, db) ∧
      postJournalStatus (postJournal db u (some t0) sid newId now).1 = 400) ∧
    postJournal db u none sid newId now = (.validationError, db) ∧
    ((jsTrim t).length ≠ 0 →
      ∃ e db2, postJournal db u (some t) sid newId now = (.created e, db2) ∧
        e.entryText = jsTrim t ∧ e.userId = u ∧ e.date = now ∧
        postJournalStatus (.created e) = 201 ∧
        db2.journals = db.journals ++ [e] ∧
        e ∈ getJournal db2 u none limit) := by
  refine ⟨?_, rfl, ?_⟩
  · intro t0 h0
    have he : postJournal db u (some t0) sid newId now =
        (.validationError, db) := by
      simp only [postJournal]
      rw [if_pos (by simpa using h0)]
    exact ⟨he, by simp [he, postJournalStatus]⟩
  · intro ht
    have he : postJournal db u (some t) sid newId now =
        (.created ⟨newId, u, jsTrim t, sid, now⟩,
          ⟨db.schools, db.adoptions,
            db.journals ++ [⟨newId, u, jsTrim t, sid, now⟩]⟩) := by
      simp only [postJournal]
      rw [if_neg (by simpa using ht)]
    refine ⟨⟨newId, u, jsTrim t, sid, now⟩,
      ⟨db.schools, db.adoptions,
        db.journals ++ [⟨newId, u, jsTrim t, sid, now⟩]⟩,
      he, rfl, rfl, rfl, rfl, rfl, ?_⟩
    show (⟨newId, u, jsTrim t, sid, now⟩ : JournalEntry) ∈
      (((db.journals ++ [(⟨newId, u, jsTrim t, sid, now⟩ : JournalEntry)]).filter
        fun x => x.userId == u && true).mergeSort dateDescJ).take limit
    have hp : ((db.journals ++ [(⟨newId, u, jsTrim t, sid, now⟩ :
        JournalEntry)]).filter fun x => x.userId == u && true) =
        (db.journals.filter fun x => x.userId == u && true) ++
          [⟨newId, u, jsTrim t, sid, now⟩] := by
      rw [List.filter_append]
      simp
    rw [hp]
    have hmax : ∀ x ∈ (db.journals.filter fun x => x.userId == u && true),
        x.date < (⟨newId, u, jsTrim t, sid, now⟩ : JournalEntry).date := by
      intro x hx
      have hx2 := List.of_mem_filter hx
      have hxu : x.userId = u := by simpa using hx2
      exact hfresh x (List.mem_of_mem_filter hx) hxu
    obtain ⟨r, hr⟩ := mergeSort_cons_of_strict_max
      (db.journals.filter fun x => x.userId == u && true)
      ⟨newId, u, jsTrim t, sid, now⟩ hmax
    rw [hr]
    cases limit with
    | zero => omega
    | succ k =>
      rw [List.take_succ_cons]
      exact List.mem_cons_self _ _

/-- Witness for C7 at concrete inputs over dbJ: the whitespace-only text
is rejected, the missing text is rejected, and the nonblank text is
stored trimmed and shows up in the immediate listing. -/
theorem journal_roundtrip_spec_witness :
    (postJournal dbJ 1 (some "   ") none 9 100 = (.validationError, dbJ) ∧
      postJournalStatus (postJournal dbJ 1 (some "   ") none 9 100).1 = 400) ∧
    postJournal dbJ 1 none none 9 100 = (.validationError, dbJ) ∧
    (∃ e db2, postJournal dbJ 1 (some "  dear diary  ") none 9 100 =
        (.created e, db2) ∧
      e.entryText = jsTrim "  dear diary  " ∧ e.userId = 1 ∧ e.date = 100 ∧
      postJournalStatus (.created e) = 201 ∧
      db2.journals = dbJ.journals ++ [e] ∧
      e ∈ getJournal db2 1 none 50) :=
  ⟨(journal_roundtrip_spec dbJ 1 9 100 50 "  dear diary  " none (by decide)
      (by decide)).1 "   " (by decide),
   (journal_roundtrip_spec dbJ 1 9 100 50 "  dear diary  " none (by decide)
      (by decide)).2.1,
   (journal_roundtrip_spec dbJ 1 9 100 50 "  dear diary  " none (by decide)
      (by decide)).2.2 (by decide)⟩

/-- C9: the dashboard is a pure read: totalPrayers is the sum of
prayerCount over the callers adoptions, totalJournalEntries the sum of
the embedded sub-entry counts over them, journalCount the number of the
callers standalone entries, schoolsCount the number of adoptions;
recentJournals is exactly the five most recent standalone entries of
the caller: it holds min 5 (number of the callers entries) entries, all
the callers, in descending date order, and no entry of the caller that
was left out is newer than any entry that was included; daysActive is
the floor of the elapsed milliseconds divided by the milliseconds of
one day; and the snapshot is returned unchanged. -/
theorem dashboard_spec (db : DB) (u now createdAt : Nat) :
    (dashboard db u now createdAt).1.stats.totalPrayers =
      ((db.adoptions.filter fun a => a.userId == u).map
        Adoption.prayerCount).sum ∧
    (dashboard db u now createdAt).1.stats.totalJournalEntries =
      ((db.adoptions.filter fun a => a.userId == u).map
        fun a => a.journalEntries.length).sum ∧
    (dashboard db u now createdAt).1.stats.journalCount =
      (db.journals.filter fun x => x.userId == u).length ∧
    (dashboard db u now createdAt).1.stats.schoolsCount =
      (db.adoptions.filter fun a => a.userId == u).length ∧
    (dashboard db u now createdAt).1.stats.daysActive =
      ⌊(((now - createdAt : Nat)) : ℚ) / ((86400000 : Nat) : ℚ)⌋₊ ∧
    (dashboard db u now createdAt).1.recentJournals.length ≤ 5 ∧
    (dashboard db u now createdAt).1.recentJournals.length =
      min 5 (db.journals.filter fun x => x.userId == u).length ∧
    (∀ x ∈ (dashboard db u now createdAt).1.recentJournals, x.userId = u) ∧
    (∀ x ∈ db.journals, x.userId = u →
      x ∉ (dashboard db u now createdAt).1.recentJournals →
      ∀ y ∈ (dashboard db u now createdAt).1.recentJournals, x.date ≤ y.date) ∧
    (dashboard db u now createdAt).1.recentJournals.Pairwise
      (fun a b => b.date ≤ a.date) ∧
    (dashboard db u now createdAt).2 = db := by
  have permA := List.mergeSort_perm
    (db.adoptions.filter fun a => a.userId == u) dateDescA
  have permJ := List.mergeSort_perm
    (db.journals.filter fun x => x.userId == u) dateDescJ
  refine ⟨?_, ?_, rfl, ?_, ?_, ?_, ?_, ?_, ?_, ?_, rfl⟩
  · show ((db.adoptions.filter fun a => a.userId == u).mergeSort
      dateDescA).foldl (fun s a => s + a.prayerCount) 0 = _
    rw [foldl_add_map_sum]
    exact (permA.map Adoption.prayerCount).sum_eq
  · show ((db.adoptions.filter fun a => a.userId == u).mergeSort
      dateDescA).foldl (fun s a => s + a.journalEntries.length) 0 = _
    rw [foldl_add_map_sum]
    exact (permA.map fun a => a.journalEntries.length).sum_eq
  · show ((db.adoptions.filter fun a => a.userId == u).mergeSort
      dateDescA).length = _
    exact permA.length_eq
  · show (now - createdAt) / 86400000 = _
    rw [Nat.floor_div_nat, Nat.floor_natCast]
  · show (((db.journals.filter fun x => x.userId == u).mergeSort
      dateDescJ).take 5).length ≤ 5
    exact List.length_take_le 5 _
  · show (((db.journals.filter fun x => x.userId == u).mergeSort
      dateDescJ).take 5).length = _
    rw [List.length_take, permJ.length_eq]
  · intro x hx
    have hx2 : x ∈ (db.journals.filter fun x => x.userId == u).mergeSort
        dateDescJ := List.mem_of_mem_take hx
    have hx3 := permJ.mem_iff.mp hx2
    have hx4 := List.of_mem_filter hx3
    simpa using hx4
  · intro x hxj hxu hxnot y hy
    have hxS : x ∈ (db.journals.filter fun e => e.userId == u).mergeSort
        dateDescJ := by
      rw [permJ.mem_iff]
      exact List.mem_filter.mpr ⟨hxj, by simpa using hxu⟩
    have hxTD : x ∈ ((db.journals.filter fun e => e.userId == u).mergeSort
        dateDescJ).take 5 ++
        ((db.journals.filter fun e => e.userId == u).mergeSort
          dateDescJ).drop 5 := by
      rw [List.take_append_drop]
      exact hxS
    have hxd : x ∈ ((db.journals.filter fun e => e.userId == u).mergeSort
        dateDescJ).drop 5 := by
      rcases List.mem_append.mp hxTD with h | h
      · exact absurd h hxnot
      · exact h
    have hpair := List.sorted_mergeSort dateDescJ_trans dateDescJ_total
      (db.journals.filter fun e => e.userId == u)
    rw [← List.take_append_drop 5 ((db.journals.filter
      fun e => e.userId == u).mergeSort dateDescJ)] at hpair
    rw [List.pairwise_append] at hpair
    have hle := hpair.2.2 y hy x hxd
    simpa [dateDescJ] using hle
  · have hsorted := List.sorted_mergeSort dateDescJ_trans dateDescJ_total
      (db.journals.filter fun x => x.userId == u)
    have htake := List.Pairwise.sublist
      (List.take_sublist 5 ((db.journals.filter fun x => x.userId == u).mergeSort
        dateDescJ)) hsorted
    exact htake.imp fun h => by simpa [dateDescJ] using h

/-- Witness for C9 at a concrete input over dbJ: closed instantiation
of the dashboard equations, including the exact recent-entry count. -/
theorem dashboard_spec_witness :
    (dashboard dbJ 1 100 30).1.stats.totalPrayers =
      ((dbJ.adoptions.filter fun a => a.userId == 1).map
        Adoption.prayerCount).sum ∧
    (dashboard dbJ 1 100 30).1.stats.daysActive =
      ⌊(((100 - 30 : Nat)) : ℚ) / ((86400000 : Nat) : ℚ)⌋₊ ∧
    (dashboard dbJ 1 100 30).1.recentJournals.length =
      min 5 (dbJ.journals.filter fun x => x.userId == 1).length ∧
    (dashboard dbJ 1 100 30).2 = dbJ :=
  ⟨(dashboard_spec dbJ 1 100 30).1,
   (dashboard_spec dbJ 1 100 30).2.2.2.2.1,
   (dashboard_spec dbJ 1 100 30).2.2.2.2.2.2.1,
   (dashboard_spec dbJ 1 100 30).2.2.2.2.2.2.2.2.2.2⟩
